import Mathlib

/-!
Shallow embedding of the Autopilot Security Sensor (APSS) data-plane core,
with theorems checking its specification claims.

Each definition is translated from one Go function or type of the repository:
the HTTP/API types of internal/types, the detection engine of
internal/detection, the controller ingest and alert retention of
internal/controller, the event HTTP handler of internal/server, the
admission mutator of internal/webhook, the process monitor of pkg/procmon,
the network monitor of pkg/netpolicy, and the event collector of
pkg/collector.

Conventions used throughout:
- Go time.Time values are modelled as Nat instants passed in explicitly
  (the Go code reads time.Now at the corresponding points).
- Go maps are modelled as association lists with first-match lookup.
- Go channels of capacity n are modelled as lists plus the capacity: a
  non-blocking send succeeds exactly when the length is below capacity.
- Go regexp matching and net.IP string rendering are stdlib calls external
  to this repository; they enter the embedding as function parameters.
-/

set_option maxRecDepth 4000

namespace APSS

/-! ## internal/types: HTTP/API event and alert types -/

namespace Types

/-- ProcessEventData (internal/types): process payload of an API event. -/
structure ProcessEventData where
  pid : Int
  ppid : Int
  name : String
  cmdline : List String
  suspiciousIndicators : List String
deriving DecidableEq

/-- NetworkEventData (internal/types): network payload of an API event. -/
structure NetworkEventData where
  protocol : String
  dstIP : String
  dstPort : Int
  state : String
  isExternal : Bool
  isSuspiciousPort : Bool
deriving DecidableEq

/-- FileEventData (internal/types): file payload of an API event. -/
structure FileEventData where
  path : String
  operation : String
  oldHash : String
  newHash : String
deriving DecidableEq

/-- SecurityEvent (internal/types): the HTTP/API representation of a
security event posted by agents to the controller. -/
structure SecurityEvent where
  id : String
  agentID : String
  type : String
  severity : String
  timestamp : Nat
  podName : String
  podNamespace : String
  process : Option ProcessEventData
  network : Option NetworkEventData
  file : Option FileEventData
  metadata : List (String × String)
deriving DecidableEq

/-- Alert (internal/types): a generated security alert. -/
structure Alert where
  id : String
  timestamp : Nat
  severity : String
  ruleID : String
  ruleName : String
  description : String
  eventIDs : List String
  podName : String
  podNS : String
  mitreTactic : String
  mitreID : String
  actions : List String
deriving DecidableEq

/-- AgentInfo (internal/types): liveness record for a connected agent. -/
structure AgentInfo where
  id : String
  podName : String
  podNamespace : String
  connectedAt : Nat
  lastSeen : Nat
  eventCount : Int
deriving DecidableEq

end Types

/-! ## internal/detection: the rule engine -/

namespace Detection

/-- Rule (internal/detection): a detection rule, condition plus metadata. -/
structure Rule where
  id : String
  name : String
  description : String
  severity : String
  mitreTactic : String
  mitreID : String
  condition : Types.SecurityEvent → Bool
  actions : List String

/-- defaultRules (internal/detection): the five built-in rules, in source
order APSS-001 .. APSS-005, conditions translated clause by clause. -/
def defaultRules : List Rule :=
  [ { id := "APSS-001"
      name := "Potential Reverse Shell"
      description := "Detected network connection matching reverse shell pattern"
      severity := "CRITICAL"
      mitreTactic := "Command and Control"
      mitreID := "T1059.004"
      condition := fun e =>
        match e.network with
        | none => false
        | some n => n.isExternal && ([4444, 5555, 6666, 1337] : List Int).contains n.dstPort
      actions := ["Investigate pod immediately", "Check for unauthorized processes", "Review pod logs"] }
  , { id := "APSS-002"
      name := "Cryptominer Detected"
      description := "Process matching known cryptocurrency miner patterns"
      severity := "CRITICAL"
      mitreTactic := "Impact"
      mitreID := "T1496"
      condition := fun e =>
        match e.process with
        | none => false
        | some p => p.suspiciousIndicators.contains "possible_cryptominer"
      actions := ["Terminate pod", "Investigate container image", "Review deployment source"] }
  , { id := "APSS-003"
      name := "Sensitive File Modified"
      description := "Critical system file was modified"
      severity := "HIGH"
      mitreTactic := "Persistence"
      mitreID := "T1546"
      condition := fun e =>
        match e.file with
        | none => false
        | some f => (["/etc/passwd", "/etc/shadow", "/etc/sudoers"] : List String).any
            (fun p => f.path == p && f.operation == "modify")
      actions := ["Review file changes", "Check for privilege escalation", "Audit container"] }
  , { id := "APSS-004"
      name := "Shell Spawned in Container"
      description := "Interactive shell was spawned inside container"
      severity := "MEDIUM"
      mitreTactic := "Execution"
      mitreID := "T1059"
      condition := fun e =>
        match e.process with
        | none => false
        | some p => p.suspiciousIndicators.contains "shell_spawn"
      actions := ["Verify if expected (kubectl exec)", "Review user activity", "Check for lateral movement"] }
  , { id := "APSS-005"
      name := "External Database Connection"
      description := "Connection to external database detected"
      severity := "MEDIUM"
      mitreTactic := "Exfiltration"
      mitreID := "T1048"
      condition := fun e =>
        match e.network with
        | none => false
        | some n => n.isExternal && ([3306, 5432, 27017, 6379, 9200] : List Int).contains n.dstPort
      actions := ["Verify database connection is authorized", "Review network policies", "Check for data exfiltration"] }
  ]

/-- The alert built by Engine.Evaluate for one matching rule. The Go code
stamps the alert id and timestamp from time.Now, modelled by the instant
"now". -/
def mkAlert (now : Nat) (e : Types.SecurityEvent) (r : Rule) : Types.Alert :=
  { id := "alert-" ++ toString now
    timestamp := now
    severity := r.severity
    ruleID := r.id
    ruleName := r.name
    description := r.description
    eventIDs := [e.id]
    podName := e.podName
    podNS := e.podNamespace
    mitreTactic := r.mitreTactic
    mitreID := r.mitreID
    actions := r.actions }

/-- Engine.Evaluate (internal/detection): loop over the rule list, appending
one alert per rule whose condition holds. -/
def Evaluate (now : Nat) (e : Types.SecurityEvent) : List Types.Alert :=
  defaultRules.foldl
    (fun alerts r => if r.condition e then alerts ++ [mkAlert now e r] else alerts) []

end Detection

/-! ## internal/controller: ingest, agent tracking, alert retention -/

namespace Controller

/-- Association-list lookup modelling a read of the Go agents map. -/
def lookupAgent : List (String × Types.AgentInfo) → String → Option Types.AgentInfo
  | [], _ => none
  | (k, v) :: rest, key => if k = key then some v else lookupAgent rest key

/-- Association-list update modelling a write to the Go agents map. -/
def storeAgent : List (String × Types.AgentInfo) → String → Types.AgentInfo →
    List (String × Types.AgentInfo)
  | [], key, v => [(key, v)]
  | (k, w) :: rest, key, v =>
    if k = key then (k, v) :: rest else (k, w) :: storeAgent rest key v

/-- Controller state relevant to ingestion: the agents map and the event
buffer channel (list plus capacity cfg.EventBufferSize). -/
structure State where
  agents : List (String × Types.AgentInfo)
  eventBuffer : List Types.SecurityEvent
  eventBufferCap : Nat
deriving DecidableEq

/-- Result of IngestEvent: nil error (202 path) or the buffer-full error
(503 path). -/
inductive IngestResult where
  | accepted
  | bufferFull
deriving DecidableEq

/-- IngestEvent (internal/controller): unconditionally update the agents
map (create on first sight with event count 1, else refresh lastSeen and
increment the count), then attempt a non-blocking send to the event
buffer. -/
def IngestEvent (now : Nat) (st : State) (e : Types.SecurityEvent) :
    State × IngestResult :=
  let agents2 :=
    match lookupAgent st.agents e.agentID with
    | some a => storeAgent st.agents e.agentID
        { a with lastSeen := now, eventCount := a.eventCount + 1 }
    | none => storeAgent st.agents e.agentID
        { id := e.agentID
          podName := e.podName
          podNamespace := e.podNamespace
          connectedAt := now
          lastSeen := now
          eventCount := 1 }
  let st2 := { st with agents := agents2 }
  if st2.eventBuffer.length < st2.eventBufferCap then
    ({ st2 with eventBuffer := st2.eventBuffer ++ [e] }, .accepted)
  else
    (st2, .bufferFull)

/-- The alert-store update performed by processAlerts for one alert taken
from the alert channel: append, then trim from the front while the length
exceeds cfg.AlertRetentionCount. -/
def processAlertsAppend (retentionCount : Nat) (store : List Types.Alert)
    (a : Types.Alert) : List Types.Alert :=
  let s := store ++ [a]
  if retentionCount < s.length then s.drop (s.length - retentionCount) else s

end Controller

/-! ## internal/server: the events HTTP handler -/

namespace Server

/-- Outcome of handleEvents on a request whose body decoded into an event:
the controller state after IngestEvent, the HTTP status written, and
whether SendHighSeverityEvent was invoked. -/
structure HandleResult where
  state : Controller.State
  status : Nat
  relayed : Bool
deriving DecidableEq

/-- handleEvents (internal/server), after method and decode checks: call
IngestEvent; on error reply 503; otherwise invoke SendHighSeverityEvent
exactly when the severity string is CRITICAL or HIGH, and reply 202. -/
def handleEvents (now : Nat) (st : Controller.State) (e : Types.SecurityEvent) :
    HandleResult :=
  match Controller.IngestEvent now st e with
  | (st2, Controller.IngestResult.bufferFull) =>
    { state := st2, status := 503, relayed := false }
  | (st2, Controller.IngestResult.accepted) =>
    { state := st2, status := 202
      relayed := e.severity == "CRITICAL" || e.severity == "HIGH" }

end Server

/-! ## internal/webhook: the admission mutator -/

namespace Webhook

/-- WebhookConfig (internal/config): fields used by the mutator. -/
structure WebhookConfig where
  excludeNamespaces : List String
  sidecarImage : String
  controllerEndpoint : String
deriving DecidableEq

/-- EnvVar (corev1): either a literal value or a downward-API field
reference (the fieldPath string). -/
structure EnvVar where
  name : String
  value : String
  fieldRefPath : Option String
deriving DecidableEq

/-- Resource quantity list (corev1.ResourceList restricted to cpu/memory,
quantities kept as their source strings). -/
structure ResourceList where
  cpu : String
  memory : String
deriving DecidableEq

/-- SecurityContext (corev1): fields set by the sidecar. -/
structure SecurityCtx where
  runAsNonRoot : Option Bool
  readOnlyRootFilesystem : Option Bool
  allowPrivilegeEscalation : Option Bool
  dropCapabilities : List String
deriving DecidableEq

/-- VolumeMount (corev1). -/
structure VolumeMount where
  name : String
  mountPath : String
  readOnly : Bool
deriving DecidableEq

/-- Container (corev1): fields relevant to the mutator. -/
structure Container where
  name : String
  image : String
  requests : ResourceList
  limits : ResourceList
  env : List EnvVar
  securityCtx : Option SecurityCtx
  volumeMounts : List VolumeMount
deriving DecidableEq

/-- Volume (corev1): name plus the EmptyDir medium when the source is an
in-memory EmptyDir. -/
structure Volume where
  name : String
  emptyDirMedium : Option String
deriving DecidableEq

/-- Pod (corev1): fields read by ShouldSkipInjection and
CreateSidecarPatches. A nil Go annotations map is distinguished from an
empty one by the Option. -/
structure Pod where
  name : String
  namespaceName : String
  annots : Option (List (String × String))
  containers : List Container
  volumes : List Volume
  shareProcessNamespace : Option Bool
  hostNetwork : Bool
deriving DecidableEq

/-- First-match lookup in an annotations map. -/
def lookupStr : List (String × String) → String → Option String
  | [], _ => none
  | (k, v) :: rest, key => if k = key then some v else lookupStr rest key

/-- ShouldSkipInjection (internal/webhook): namespace excluded, sidecar
already present, inject=false annotation, or hostNetwork. -/
def ShouldSkipInjection (cfg : WebhookConfig) (pod : Pod) (ns : String) : Bool :=
  cfg.excludeNamespaces.any (fun x => ns == x)
  || pod.containers.any (fun c => c.name == "apss-agent")
  || (match pod.annots with
      | some as =>
        match lookupStr as "apss.invisible.tech/inject" with
        | some v => v == "false"
        | none => false
      | none => false)
  || pod.hostNetwork

/-- Value carried by a JSON patch operation produced by the mutator. -/
inductive PatchValue where
  | container (c : Container)
  | volumeList (vs : List Volume)
  | volume (v : Volume)
  | boolean (b : Bool)
  | stringMap (m : List (String × String))
  | str (s : String)
deriving DecidableEq

/-- PatchOperation (internal/webhook): an RFC 6902 operation. -/
structure PatchOperation where
  op : String
  path : String
  value : Option PatchValue
deriving DecidableEq

/-- The sidecar container literal built inside CreateSidecarPatches. -/
def sidecarContainer (cfg : WebhookConfig) (pod : Pod) : Container :=
  { name := "apss-agent"
    image := cfg.sidecarImage
    requests := { cpu := "10m", memory := "32Mi" }
    limits := { cpu := "100m", memory := "128Mi" }
    env :=
      [ { name := "POD_NAME", value := "", fieldRefPath := some "metadata.name" }
      , { name := "POD_NAMESPACE", value := "", fieldRefPath := some "metadata.namespace" }
      , { name := "NODE_NAME", value := "", fieldRefPath := some "spec.nodeName" }
      , { name := "AGENT_ID", value := pod.name ++ "-" ++ pod.namespaceName, fieldRefPath := none }
      , { name := "CONTROLLER_ENDPOINT", value := cfg.controllerEndpoint, fieldRefPath := none } ]
    securityCtx := some
      { runAsNonRoot := some true
        readOnlyRootFilesystem := some true
        allowPrivilegeEscalation := some false
        dropCapabilities := ["ALL"] }
    volumeMounts := [{ name := "apss-proc", mountPath := "/proc", readOnly := true }] }

/-- The apss-proc in-memory volume literal built inside
CreateSidecarPatches. -/
def procVolume : Volume :=
  { name := "apss-proc", emptyDirMedium := some "Memory" }

/-- CreateSidecarPatches (internal/webhook): container add, volume add or
append, conditional shareProcessNamespace add, annotation add or extend,
in source order. -/
def CreateSidecarPatches (cfg : WebhookConfig) (pod : Pod) : List PatchOperation :=
  let patches1 : List PatchOperation :=
    [{ op := "add", path := "/spec/containers/-"
       value := some (.container (sidecarContainer cfg pod)) }]
  let patches2 :=
    if pod.volumes.length = 0 then
      patches1 ++ [{ op := "add", path := "/spec/volumes"
                     value := some (.volumeList [procVolume]) }]
    else
      patches1 ++ [{ op := "add", path := "/spec/volumes/-"
                     value := some (.volume procVolume) }]
  let patches3 :=
    if pod.shareProcessNamespace = none || pod.shareProcessNamespace = some false then
      patches2 ++ [{ op := "add", path := "/spec/shareProcessNamespace"
                     value := some (.boolean true) }]
    else
      patches2
  match pod.annots with
  | none =>
    patches3 ++ [{ op := "add", path := "/metadata/annotations"
                   value := some (.stringMap [("apss.invisible.tech/injected", "true")]) }]
  | some _ =>
    patches3 ++ [{ op := "add", path := "/metadata/annotations/apss.invisible.tech~1injected"
                   value := some (.str "true") }]

/-- The patch-list part of processRequest (internal/webhook/handler) for a
decoded Pod request: no patches when the skip predicate holds, else the
sidecar patches. -/
def mutatePod (cfg : WebhookConfig) (pod : Pod) (ns : String) : List PatchOperation :=
  if ShouldSkipInjection cfg pod ns then [] else CreateSidecarPatches cfg pod

end Webhook

/-! ## pkg/collector: the per-pod event funnel -/

namespace Collector

/-- Severity (pkg/collector): ordered iota enum, Unknown = 0 through
Critical = 5, modelled by its numeric value. -/
abbrev Severity := Nat

def severityUnknown : Severity := 0
def severityInfo : Severity := 1
def severityLow : Severity := 2
def severityMedium : Severity := 3
def severityHigh : Severity := 4
def severityCritical : Severity := 5

/-- EventType (pkg/collector): iota enum, modelled by its numeric value. -/
abbrev EventType := Nat

def eventTypeUnknown : EventType := 0
def eventTypeProcessStart : EventType := 1
def eventTypeProcessExit : EventType := 2
def eventTypeNetworkConnect : EventType := 3
def eventTypeNetworkListen : EventType := 4
def eventTypeFileCreate : EventType := 5
def eventTypeFileModify : EventType := 6
def eventTypeFileDelete : EventType := 7
def eventTypeFileAccess : EventType := 8

/-- ProcessEvent (pkg/collector): process payload of an internal event. -/
structure ProcessEvent where
  pid : Int
  ppid : Int
  name : String
  exePath : String
  cmdline : List String
  user : String
  uid : Int
  startTime : Nat
  exitCode : Int
  suspiciousIndicators : List String
deriving DecidableEq

/-- NetworkEvent (pkg/collector): network payload of an internal event. -/
structure NetworkEvent where
  protocol : String
  srcIP : String
  srcPort : Int
  dstIP : String
  dstPort : Int
  state : String
  pid : Int
  processName : String
  isExternal : Bool
  isSuspiciousPort : Bool
  geoLocation : String
deriving DecidableEq

/-- FileEvent (pkg/collector): file payload of an internal event. -/
structure FileEvent where
  path : String
  operation : String
  pid : Int
  processName : String
  oldHash : String
  newHash : String
  sizeBytes : Int
  permissions : String
deriving DecidableEq

/-- SecurityEvent (pkg/collector): the internal event representation
carried from the monitors to the collector. The Resource, DNS and Audit
payload pointers of the Go struct are never set by the process, network or
file monitors and are outside the verified claims, so they are omitted
here; exactly the payloads the monitors produce are kept. -/
structure SecurityEvent where
  id : String
  type : EventType
  severity : Severity
  timestamp : Nat
  podName : String
  podNamespace : String
  containerID : String
  containerName : String
  process : Option ProcessEvent
  network : Option NetworkEvent
  file : Option FileEvent
  metadata : List (String × String)
  tags : List String
deriving DecidableEq

/-- Collector state (pkg/collector EventCollector): configuration identity
plus the sent/dropped counters. -/
structure CollectorState where
  controllerEndpoint : String
  agentID : String
  podName : String
  podNamespace : String
  eventsSent : Int
  eventsDropped : Int
deriving DecidableEq

/-- Outcome of the HTTP POST made by sendEvent: the transport failed, or a
response with the given status code arrived. -/
inductive SendResponse where
  | transportFailure
  | status (code : Nat)
deriving DecidableEq

/-- The enrichment performed at the top of processEvent: stamp pod
identity from the configuration and assign an id when the source left it
blank (agentID dash the current nanosecond instant). -/
def enrichEvent (st : CollectorState) (now : Nat) (e : SecurityEvent) : SecurityEvent :=
  { e with
    podName := st.podName
    podNamespace := st.podNamespace
    id := if e.id = "" then st.agentID ++ "-" ++ toString now else e.id }

/-- sendEvent (pkg/collector) reduced to its error decision: an
unconfigured endpoint is an error before any request; a transport failure
is an error; any response status other than 202 is an error. -/
def sendEventOK (st : CollectorState) (resp : SendResponse) : Bool :=
  if st.controllerEndpoint = "" then false
  else
    match resp with
    | .transportFailure => false
    | .status code => code == 202

/-- processEvent (pkg/collector): enrich, send, and increment exactly one
of the two counters according to the send outcome. Returns the new state
and the enriched event that was logged and serialized. -/
def processEvent (now : Nat) (st : CollectorState) (e : SecurityEvent)
    (resp : SendResponse) : CollectorState × SecurityEvent :=
  let e2 := enrichEvent st now e
  if sendEventOK st resp then
    ({ st with eventsSent := st.eventsSent + 1 }, e2)
  else
    ({ st with eventsDropped := st.eventsDropped + 1 }, e2)

/-- The collector loop folded over a finite trace: each received event is
processed with the response its POST produced. -/
def processTrace (st : CollectorState)
    (trace : List (Nat × SecurityEvent × SendResponse)) : CollectorState :=
  trace.foldl (fun s t => (processEvent t.1 s t.2.1 t.2.2).1) st

end Collector

/-! ## pkg/procmon: the process monitor -/

namespace Procmon

/-- ProcessInfo (pkg/procmon): information about one running process. -/
structure ProcessInfo where
  pid : Int
  ppid : Int
  name : String
  exe : String
  cmdline : List String
  user : String
  uid : Int
  startTime : Nat
  cmdlineHash : String
deriving DecidableEq

/-- Substring test translating strings.Contains: some suffix of s has sub
as a prefix. -/
def strContains (s sub : String) : Bool :=
  s.data.tails.any (fun t => sub.data.isPrefixOf t)

/-- The built-in reverse-shell regex pattern list of isReverseShell
(pkg/procmon), verbatim. -/
def reverseShellPatterns : List String :=
  [ "bash\\s+-i.*>&\\s*/dev/tcp"
  , "nc\\s+.*-e\\s+/bin/(ba)?sh"
  , "python.*socket.*connect"
  , "perl.*socket.*connect"
  , "ruby.*TCPSocket"
  , "php.*fsockopen"
  , "socat.*exec"
  , "/dev/tcp/"
  , "mkfifo.*nc" ]

/-- isReverseShell (pkg/procmon): the command line matches one of the
built-in patterns. Go regexp.MatchString is a stdlib call external to the
repository and enters as the parameter rmatch (pattern, then subject). -/
def isReverseShell (rmatch : String → String → Bool) (cmdline : String) : Bool :=
  reverseShellPatterns.any (fun p => rmatch p cmdline)

/-- The miner token list of isCryptoMiner (pkg/procmon), verbatim. -/
def minerTokens : List String :=
  [ "xmrig", "minerd", "cpuminer", "cgminer", "bfgminer"
  , "ethminer", "stratum", "cryptonight", "randomx" ]

/-- The mining-pool regex pattern list of isCryptoMiner (pkg/procmon),
verbatim. -/
def poolPatterns : List String :=
  [ "stratum\\+tcp://", "pool\\..*:\\d+", "-o\\s+.*pool", "--url.*mining" ]

/-- isCryptoMiner (pkg/procmon): miner token contained in the lowercased
name or command line, or a pool pattern matching the lowercased command
line. -/
def isCryptoMiner (rmatch : String → String → Bool) (name cmdline : String) : Bool :=
  let nameLower := name.toLower
  let cmdlineLower := cmdline.toLower
  minerTokens.any (fun m => strContains nameLower m || strContains cmdlineLower m)
  || poolPatterns.any (fun p => rmatch p cmdlineLower)

/-- The known-shell name list of isShellSpawn (pkg/procmon), verbatim. -/
def shellNames : List String :=
  ["sh", "bash", "zsh", "fish", "csh", "tcsh", "dash", "ash"]

/-- isShellSpawn (pkg/procmon): the process name is a known shell and some
argument is -i, -il or -li. -/
def isShellSpawn (proc : ProcessInfo) : Bool :=
  shellNames.any (fun sh =>
    proc.name == sh &&
    proc.cmdline.any (fun arg => arg == "-i" || arg == "-il" || arg == "-li"))

/-- analyzeNewProcess (pkg/procmon): classify indicators over the joined
command line, compute the severity exactly as the Go statement sequence
does, and build the process-start event. The configurable suspicious
patterns and the regexp matcher are parameters; the event is returned
rather than sent (channel admission is outside this claim). -/
def analyzeNewProcess (rmatch : String → String → Bool)
    (suspiciousPatterns : List String) (now : Nat) (proc : ProcessInfo) :
    Collector.SecurityEvent :=
  let cmdlineStr := String.intercalate " " proc.cmdline
  let step1 : List String × Collector.Severity :=
    suspiciousPatterns.foldl
      (fun acc p =>
        if rmatch p cmdlineStr || rmatch p proc.name then
          (acc.1 ++ ["matches_pattern:" ++ p], Collector.severityHigh)
        else acc)
      ([], Collector.severityInfo)
  let step2 :=
    if isReverseShell rmatch cmdlineStr then
      (step1.1 ++ ["possible_reverse_shell"], Collector.severityCritical)
    else step1
  let step3 :=
    if isCryptoMiner rmatch proc.name cmdlineStr then
      (step2.1 ++ ["possible_cryptominer"], Collector.severityCritical)
    else step2
  let step4 :=
    if isShellSpawn proc then
      (step3.1 ++ ["shell_spawn"],
       if step3.2 < Collector.severityMedium then Collector.severityMedium else step3.2)
    else step3
  { id := ""
    type := Collector.eventTypeProcessStart
    severity := step4.2
    timestamp := now
    podName := ""
    podNamespace := ""
    containerID := ""
    containerName := ""
    process := some
      { pid := proc.pid
        ppid := proc.ppid
        name := proc.name
        exePath := proc.exe
        cmdline := proc.cmdline
        user := ""
        uid := proc.uid
        startTime := proc.startTime
        exitCode := 0
        suspiciousIndicators := step4.1 }
    network := none
    file := none
    metadata := [("cmdline_hash", proc.cmdlineHash)]
    tags := [] }

end Procmon

/-! ## pkg/netpolicy: the network monitor -/

namespace Netpolicy

/-- Go net.IP: a byte slice, nil modelled as the empty list, with 4-byte
and 16-byte forms. -/
abbrev GoIP := List Nat

/-- The 12-byte header of a v4-in-v6 address (ten zero bytes then 0xff
0xff), as produced by Go net.IPv4. -/
def v4HeaderBytes : List Nat := [0, 0, 0, 0, 0, 0, 0, 0, 0, 0, 255, 255]

/-- net.IPv4(a, b, c, d): the 16-byte form of an IPv4 address. -/
def goIPv4 (a b c d : Nat) : GoIP := v4HeaderBytes ++ [a, b, c, d]

/-- net.IPv4zero: 0.0.0.0 in 16-byte form. -/
def ipv4zero : GoIP := goIPv4 0 0 0 0

/-- net.IPv6unspecified: the all-zero 16-byte address (the address two
colons denote). -/
def ipv6unspecified : GoIP := List.replicate 16 0

/-- net.IPv6loopback: fifteen zero bytes then 1. -/
def ipv6loopback : GoIP := List.replicate 15 0 ++ [1]

/-- net.IP.Equal: equal lengths compare bytewise; a 4-byte and a 16-byte
address are equal when the long one carries the v4-in-v6 header and the
tails agree. -/
def ipEqual (ip x : GoIP) : Bool :=
  if ip.length = x.length then ip == x
  else if ip.length = 4 && x.length = 16 then
    x.take 12 == v4HeaderBytes && ip == x.drop 12
  else if ip.length = 16 && x.length = 4 then
    ip.take 12 == v4HeaderBytes && x == ip.drop 12
  else false

/-- net.IP.To4: the 4-byte form when the address is IPv4 or v4-in-v6,
otherwise nil (none). -/
def ipTo4 (ip : GoIP) : Option GoIP :=
  if ip.length = 4 then some ip
  else if ip.length = 16 && ip.take 12 == v4HeaderBytes then some (ip.drop 12)
  else none

/-- net.IP.IsUnspecified: equal to 0.0.0.0 or to the all-zero IPv6
address. -/
def ipIsUnspecified (ip : GoIP) : Bool :=
  ipEqual ip ipv4zero || ipEqual ip ipv6unspecified

/-- net.IP.IsLoopback: first byte 127 in 4-byte form, else the IPv6
loopback. -/
def ipIsLoopback (ip : GoIP) : Bool :=
  match ipTo4 ip with
  | some ip4 => ip4.headD 0 == 127
  | none => ip == ipv6loopback

/-- net.IPNet.Contains for a 4-byte network and mask: reduce the probed
address to 4-byte form when possible, require equal lengths, and compare
under the mask. -/
def cidrContains (base mask : List Nat) (ip : GoIP) : Bool :=
  let ip2 := match ipTo4 ip with
    | some x => x
    | none => ip
  ip2.length == base.length &&
    List.zipWith (fun a b => a &&& b) base mask ==
      List.zipWith (fun a b => a &&& b) ip2 mask

/-- The five CIDR ranges compiled in New (pkg/netpolicy): 10/8, 172.16/12,
192.168/16, 127/8, 169.254/16, as network/mask byte pairs. -/
def privateRanges : List (List Nat × List Nat) :=
  [ ([10, 0, 0, 0], [255, 0, 0, 0])
  , ([172, 16, 0, 0], [255, 240, 0, 0])
  , ([192, 168, 0, 0], [255, 255, 0, 0])
  , ([127, 0, 0, 0], [255, 0, 0, 0])
  , ([169, 254, 0, 0], [255, 255, 0, 0]) ]

/-- isPrivateIP (pkg/netpolicy): nil, unspecified or loopback addresses
count as private, else membership in one of the compiled ranges. -/
def isPrivateIP (ip : GoIP) : Bool :=
  if ip.isEmpty || ipIsUnspecified ip || ipIsLoopback ip then true
  else privateRanges.any (fun r => cidrContains r.1 r.2 ip)

/-- Splitting a character list at every occurrence of a separator,
translating strings.Split for a one-character separator. -/
def splitOnChar (sep : Char) : List Char → List (List Char)
  | [] => [[]]
  | c :: rest =>
    let r := splitOnChar sep rest
    if c = sep then [] :: r
    else
      match r with
      | h :: t => (c :: h) :: t
      | [] => [[c]]

/-- Value of one hexadecimal digit character, none for a non-digit. -/
def hexDigitVal (c : Char) : Option Nat :=
  if '0' ≤ c ∧ c ≤ '9' then some (c.toNat - '0'.toNat)
  else if 'a' ≤ c ∧ c ≤ 'f' then some (c.toNat - 'a'.toNat + 10)
  else if 'A' ≤ c ∧ c ≤ 'F' then some (c.toNat - 'A'.toNat + 10)
  else none

/-- hex.DecodeString on a character list: consume digit pairs, failing on
odd length or a non-digit. -/
def hexDecodeList : List Char → Option (List Nat)
  | [] => some []
  | [_] => none
  | c1 :: c2 :: rest =>
    match hexDigitVal c1, hexDigitVal c2, hexDecodeList rest with
    | some hi, some lo, some bs => some ((hi * 16 + lo) :: bs)
    | _, _, _ => none

/-- Accumulating hexadecimal digit parser (the digit loop of
strconv.ParseUint at base 16). -/
def parseHexNat : List Char → Nat → Option Nat
  | [], acc => some acc
  | c :: rest, acc =>
    match hexDigitVal c with
    | some d => parseHexNat rest (acc * 16 + d)
    | none => none

/-- strconv.ParseInt(s, 16, 32): optional leading sign, at least one
hexadecimal digit, and the signed 32-bit range check. -/
def parseIntHex32 : List Char → Option Int
  | [] => none
  | c :: rest =>
    let signDigits : Bool × List Char :=
      if c = '+' then (false, rest)
      else if c = '-' then (true, rest)
      else (false, c :: rest)
    if signDigits.2.isEmpty then none
    else
      match parseHexNat signDigits.2 0 with
      | some n =>
        if signDigits.1 then
          if n ≤ 2 ^ 31 then some (-(Int.ofNat n)) else none
        else
          if n ≤ 2 ^ 31 - 1 then some (Int.ofNat n) else none
      | none => none

/-- Per-32-bit-word endian conversion of parseAddress for IPv6: each group
of four bytes is reversed (LittleEndian.PutUint32 of BigEndian.Uint32). -/
def swapWords4 : List Nat → List Nat
  | a :: b :: c :: d :: rest => d :: c :: b :: a :: swapWords4 rest
  | l => l

/-- parseAddress (pkg/netpolicy): split hexaddr:hexport on the colon,
decode an 8-digit address little-endian with the four bytes reversed, a
32-digit address with per-word endian conversion, leave the address nil
without error for any other length, and parse the port as hexadecimal. -/
def parseAddress (s : String) : Option (GoIP × Int) :=
  match (splitOnChar ':' s.data).map (fun l => String.mk l) with
  | [ipHex, portHex] =>
    let ipRes : Option GoIP :=
      if ipHex.length = 8 then
        match hexDecodeList ipHex.data with
        | some bs => some (goIPv4 (bs.getD 3 0) (bs.getD 2 0) (bs.getD 1 0) (bs.getD 0 0))
        | none => none
      else if ipHex.length = 32 then
        match hexDecodeList ipHex.data with
        | some bs => some (swapWords4 bs)
        | none => none
      else some []
    match ipRes with
    | none => none
    | some ip =>
      match parseIntHex32 portHex.data with
      | some p => some (ip, p)
      | none => none
  | _ => none

/-- Connection (pkg/netpolicy): one row of a kernel connection table. -/
structure Connection where
  protocol : String
  localIP : GoIP
  localPort : Int
  remoteIP : GoIP
  remotePort : Int
  state : String
  inode : Nat
  uid : Int
deriving DecidableEq

/-- parseState (pkg/netpolicy): kernel state code to canonical string,
UNKNOWN for a code outside the table. The Go map lookup is keyed on the
uppercased code. -/
def parseState (s : String) : String :=
  let u := s.toUpper
  if u == "01" then "ESTABLISHED"
  else if u == "02" then "SYN_SENT"
  else if u == "03" then "SYN_RECV"
  else if u == "04" then "FIN_WAIT1"
  else if u == "05" then "FIN_WAIT2"
  else if u == "06" then "TIME_WAIT"
  else if u == "07" then "CLOSE"
  else if u == "08" then "CLOSE_WAIT"
  else if u == "09" then "LAST_ACK"
  else if u == "0A" then "LISTEN"
  else if u == "0B" then "CLOSING"
  else "UNKNOWN"

/-- isPotentialReverseShell (pkg/netpolicy): remote or local port in the
built-in reverse-shell port list. -/
def isPotentialReverseShell (conn : Connection) : Bool :=
  ([4444, 5555, 6666, 1337, 1234, 31337, 9001, 9999] : List Int).any
    (fun port => conn.remotePort == port || conn.localPort == port)

/-- analyzeConnection (pkg/netpolicy): severity elevation, the
trivial-socket skip, and event construction. Returns none exactly when
the skip fires. Go net.IP.String is a stdlib call external to the
repository and enters as the parameter ipToString; the configured
suspicious ports enter as a list. -/
def analyzeConnection (ipToString : GoIP → String) (suspiciousPorts : List Int)
    (now : Nat) (conn : Connection) : Option Collector.SecurityEvent :=
  let eventType :=
    if conn.state == "LISTEN" then Collector.eventTypeNetworkListen
    else Collector.eventTypeNetworkConnect
  let isExternal := !(isPrivateIP conn.remoteIP)
  let isSuspiciousPort :=
    suspiciousPorts.contains conn.remotePort || suspiciousPorts.contains conn.localPort
  let severity1 :=
    if conn.state == "ESTABLISHED" && isExternal then Collector.severityLow
    else Collector.severityInfo
  let severity2 := if isSuspiciousPort then Collector.severityHigh else severity1
  let severity3 :=
    if conn.state == "ESTABLISHED" && isExternal && isPotentialReverseShell conn then
      Collector.severityCritical
    else severity2
  if conn.remotePort == 0 && ipEqual conn.remoteIP ipv4zero then none
  else some
    { id := ""
      type := eventType
      severity := severity3
      timestamp := now
      podName := ""
      podNamespace := ""
      containerID := ""
      containerName := ""
      process := none
      network := some
        { protocol := conn.protocol
          srcIP := ipToString conn.localIP
          srcPort := conn.localPort
          dstIP := ipToString conn.remoteIP
          dstPort := conn.remotePort
          state := conn.state
          pid := 0
          processName := ""
          isExternal := isExternal
          isSuspiciousPort := isSuspiciousPort
          geoLocation := "" }
      file := none
      metadata := []
      tags := [] }

end Netpolicy

/-! ## Concrete inputs used by the witness theorems -/

namespace Inputs

/-- An API event with no payload set. -/
def emptyEvent : Types.SecurityEvent :=
  { id := "e1"
    agentID := "a1"
    type := "process_start"
    severity := "INFO"
    timestamp := 0
    podName := "p"
    podNamespace := "ns"
    process := none
    network := none
    file := none
    metadata := [] }

/-- A process event carrying the cryptominer indicator (scenario S1). -/
def minerEvent : Types.SecurityEvent :=
  { emptyEvent with
    id := "e2"
    severity := "CRITICAL"
    process := some
      { pid := 7
        ppid := 1
        name := "xmrig"
        cmdline := ["xmrig"]
        suspiciousIndicators := ["possible_cryptominer"] } }

/-- A small alert literal. -/
def alertA : Types.Alert :=
  { id := "alert-1"
    timestamp := 1
    severity := "HIGH"
    ruleID := "APSS-003"
    ruleName := "Sensitive File Modified"
    description := "d"
    eventIDs := ["e1"]
    podName := "p"
    podNS := "ns"
    mitreTactic := "Persistence"
    mitreID := "T1546"
    actions := [] }

/-- A second alert literal. -/
def alertB : Types.Alert := { alertA with id := "alert-2" }

/-- A regexp-match oracle for the C5 witness: a pattern matches exactly
when it is the literal substring pattern of the /dev/tcp/ rule and the
subject contains that substring; sound for the concrete subject used. -/
def literalDevTcpMatch (pat s : String) : Bool :=
  pat == "/dev/tcp/" && Procmon.strContains s "/dev/tcp/"

/-- A concrete process whose command line redirects to /dev/tcp. -/
def devTcpProc : Procmon.ProcessInfo :=
  { pid := 101
    ppid := 1
    name := "bash"
    exe := "/bin/bash"
    cmdline := ["bash", "-c", "cat</dev/tcp/1.2.3.4/4444"]
    user := ""
    uid := 0
    startTime := 0
    cmdlineHash := "abcd" }

/-- A tcp6 connection-table row whose remote address is the IPv6
unspecified address and whose remote port is 0, as parseAddress produces
for the hex column of all zeroes in /proc/net/tcp6. -/
def tcp6UnspecifiedConn : Netpolicy.Connection :=
  { protocol := "tcp6"
    localIP := Netpolicy.ipv6unspecified
    localPort := 8080
    remoteIP := Netpolicy.ipv6unspecified
    remotePort := 0
    state := "LISTEN"
    inode := 0
    uid := 0 }

/-- An IPv4 row with remote 0.0.0.0:0, as parseAddress produces for the
hex column 00000000:0000 in /proc/net/tcp. -/
def ipv4ZeroConn : Netpolicy.Connection :=
  { protocol := "tcp"
    localIP := Netpolicy.goIPv4 127 0 0 1
    localPort := 8080
    remoteIP := Netpolicy.ipv4zero
    remotePort := 0
    state := "LISTEN"
    inode := 0
    uid := 0 }

/-- A webhook configuration for the C4 witness. -/
def webhookCfg : Webhook.WebhookConfig :=
  { excludeNamespaces := ["kube-system", "kube-public", "apss-system"]
    sidecarImage := "apss-agent:test"
    controllerEndpoint := "controller:8080" }

/-- A plain application pod: one container, no volumes, no annotations,
process namespace not shared, pod network. -/
def plainPod : Webhook.Pod :=
  { name := "my-pod"
    namespaceName := "app"
    annots := none
    containers :=
      [{ name := "app"
         image := "app:latest"
         requests := { cpu := "", memory := "" }
         limits := { cpu := "", memory := "" }
         env := []
         securityCtx := none
         volumeMounts := [] }]
    volumes := []
    shareProcessNamespace := none
    hostNetwork := false }

end Inputs

/-! ## Helper lemmas shared by the claim proofs -/

/-- Folding the Evaluate loop body over any rule list appends exactly one
alert per matching rule, in list order. -/
theorem evaluate_foldl_eq (now : Nat) (e : Types.SecurityEvent)
    (rs : List Detection.Rule) (acc : List Types.Alert) :
    rs.foldl
      (fun alerts r => if r.condition e then alerts ++ [Detection.mkAlert now e r] else alerts)
      acc
    = acc ++ (rs.filter (fun r => r.condition e)).map (Detection.mkAlert now e) := by
  induction rs generalizing acc with
  | nil => simp
  | cons r rest ih =>
    by_cases h : r.condition e <;>
      simp [List.foldl_cons, List.filter_cons, h, ih, List.append_assoc]

/-! ## Claim theorems -/

/-- C2: for every alert appended by the alert processor, the retention
store afterwards holds at most retentionCount alerts; the result is
exactly the suffix of most recent entries of the appended sequence (FIFO
eviction of the oldest), its length is the minimum of the appended length
and the bound, and no eviction happens while the bound is not exceeded. -/
theorem alert_retention_bound_fifo (retentionCount : Nat)
    (store : List Types.Alert) (a : Types.Alert) :
    (Controller.processAlertsAppend retentionCount store a).length ≤ retentionCount
  ∧ Controller.processAlertsAppend retentionCount store a
      = (store ++ [a]).drop (store.length + 1 - retentionCount)
  ∧ (Controller.processAlertsAppend retentionCount store a).length
      = min (store.length + 1) retentionCount
  ∧ (store.length + 1 ≤ retentionCount →
      Controller.processAlertsAppend retentionCount store a = store ++ [a]) := by
  unfold Controller.processAlertsAppend
  have hlen : (store ++ [a]).length = store.length + 1 := by simp
  by_cases h : retentionCount < (store ++ [a]).length
  · simp only [h, if_pos]
    refine ⟨?_, ?_, ?_, ?_⟩
    · simp only [List.length_drop, hlen]; omega
    · rw [hlen]
    · simp only [List.length_drop, hlen]; omega
    · intro hle; rw [hlen] at h; omega
  · simp only [h, if_neg, not_false_iff]
    rw [hlen] at h
    refine ⟨?_, ?_, ?_, ?_⟩
    · rw [hlen]; omega
    · have hz : store.length + 1 - retentionCount = 0 := by omega
      rw [hz, List.drop_zero]
    · rw [hlen]; omega
    · intro _; trivial

/-- C2 witness: appending to a two-alert store with retention bound 2
evicts the oldest entry and keeps the two most recent in order. -/
theorem alert_retention_bound_fifo_witness :
    Controller.processAlertsAppend 2 [Inputs.alertA, Inputs.alertB] Inputs.alertA
      = [Inputs.alertB, Inputs.alertA]
  ∧ Controller.processAlertsAppend 2 [Inputs.alertA] Inputs.alertB
      = [Inputs.alertA, Inputs.alertB] := by
  have h1 := alert_retention_bound_fifo 2 [Inputs.alertA, Inputs.alertB] Inputs.alertA
  have h2 := alert_retention_bound_fifo 2 [Inputs.alertA] Inputs.alertB
  exact ⟨by rw [h1.2.1]; rfl, by rw [h2.2.2.2 (by decide)]; rfl⟩

/-- C3: Evaluate returns exactly one alert per matching rule, in the fixed
rule order APSS-001 through APSS-005, and every returned alert carries the
matching rule identity, name, severity, MITRE labels and actions, with
eventIDs the one-element list of the event id and the pod identity copied
from the event. -/
theorem evaluate_one_alert_per_matching_rule (now : Nat) (e : Types.SecurityEvent) :
    Detection.Evaluate now e
      = (Detection.defaultRules.filter (fun r => r.condition e)).map (Detection.mkAlert now e)
  ∧ Detection.defaultRules.map Detection.Rule.id
      = ["APSS-001", "APSS-002", "APSS-003", "APSS-004", "APSS-005"]
  ∧ (∀ a ∈ Detection.Evaluate now e,
      a.eventIDs = [e.id] ∧ a.podName = e.podName ∧ a.podNS = e.podNamespace
      ∧ ∃ r ∈ Detection.defaultRules, r.condition e = true
          ∧ a.ruleID = r.id ∧ a.ruleName = r.name ∧ a.severity = r.severity
          ∧ a.mitreTactic = r.mitreTactic ∧ a.mitreID = r.mitreID
          ∧ a.actions = r.actions ∧ a.description = r.description) := by
  have hmain : Detection.Evaluate now e
      = (Detection.defaultRules.filter (fun r => r.condition e)).map (Detection.mkAlert now e) := by
    unfold Detection.Evaluate
    simpa using evaluate_foldl_eq now e Detection.defaultRules []
  refine ⟨hmain, by rfl, ?_⟩
  intro a ha
  rw [hmain] at ha
  rcases List.mem_map.mp ha with ⟨r, hrmem, hra⟩
  rcases List.mem_filter.mp hrmem with ⟨hrd, hrc⟩
  subst hra
  refine ⟨rfl, rfl, rfl, r, hrd, by simpa using hrc, rfl, rfl, rfl, rfl, rfl, rfl, rfl⟩

/-- C3 witness: on the cryptominer event only APSS-002 matches, and the
produced alert carries that rule identity with eventIDs [e2] and the pod
identity of the event. -/
theorem evaluate_one_alert_per_matching_rule_witness :
    (Detection.Evaluate 5 Inputs.minerEvent).map Types.Alert.ruleID = ["APSS-002"]
  ∧ (∀ a ∈ Detection.Evaluate 5 Inputs.minerEvent,
      a.eventIDs = ["e2"] ∧ a.podName = "p") := by
  have h := evaluate_one_alert_per_matching_rule 5 Inputs.minerEvent
  constructor
  · rw [h.1]; rfl
  · intro a ha
    have h3 := h.2.2 a ha
    exact ⟨h3.1, h3.2.1⟩

/-- C9 (implicit): every built-in rule condition returns false on an event
whose process, network and file payloads are all absent, so Evaluate
returns the empty alert list without needing any payload. -/
theorem evaluate_safe_on_empty_payloads (now : Nat) (e : Types.SecurityEvent)
    (hp : e.process = none) (hn : e.network = none) (hf : e.file = none) :
    Detection.Evaluate now e = []
  ∧ ∀ r ∈ Detection.defaultRules, r.condition e = false := by
  have hcond : ∀ r ∈ Detection.defaultRules, r.condition e = false := by
    intro r hr
    simp only [Detection.defaultRules, List.mem_cons, List.mem_singleton] at hr
    rcases hr with rfl | rfl | rfl | rfl | rfl | h
    · simp [hn]
    · simp [hp]
    · simp [hf]
    · simp [hp]
    · simp [hn]
    · cases h
  constructor
  · unfold Detection.Evaluate
    rw [evaluate_foldl_eq now e Detection.defaultRules []]
    have : Detection.defaultRules.filter (fun r => r.condition e) = [] := by
      rw [List.filter_eq_nil_iff]
      intro r hr
      simp [hcond r hr]
    simp [this]
  · exact hcond

/-- C9 witness: on the concrete payload-less event the engine returns no
alerts. -/
theorem evaluate_safe_on_empty_payloads_witness :
    Detection.Evaluate 0 Inputs.emptyEvent = [] :=
  (evaluate_safe_on_empty_payloads 0 Inputs.emptyEvent rfl rfl rfl).1

/-- Writing then reading the agents map at the written key yields the
written record. -/
theorem lookup_store_self (m : List (String × Types.AgentInfo)) (k : String)
    (v : Types.AgentInfo) :
    Controller.lookupAgent (Controller.storeAgent m k v) k = some v := by
  induction m with
  | nil => simp [Controller.storeAgent, Controller.lookupAgent]
  | cons kv rest ih =>
    obtain ⟨k2, w⟩ := kv
    by_cases h : k2 = k <;>
      simp [Controller.storeAgent, Controller.lookupAgent, h, ih]

/-- C1: handleEvents updates AgentInfo unconditionally before queue
admission: a new agent id gets a record with event count 1, a known one
gets lastSeen refreshed and the count incremented; a full queue yields
status 503 with the buffer unchanged while the agents update has still
taken effect, and an accepting queue yields 202 with the event
enqueued. -/
theorem ingest_updates_agents_before_admission (now : Nat)
    (st : Controller.State) (e : Types.SecurityEvent) :
    (Controller.lookupAgent st.agents e.agentID = none →
      Controller.lookupAgent (Server.handleEvents now st e).state.agents e.agentID
        = some { id := e.agentID, podName := e.podName, podNamespace := e.podNamespace,
                 connectedAt := now, lastSeen := now, eventCount := 1 })
  ∧ (∀ a, Controller.lookupAgent st.agents e.agentID = some a →
      Controller.lookupAgent (Server.handleEvents now st e).state.agents e.agentID
        = some { a with lastSeen := now, eventCount := a.eventCount + 1 })
  ∧ (st.eventBufferCap ≤ st.eventBuffer.length →
      (Server.handleEvents now st e).status = 503
      ∧ (Server.handleEvents now st e).state.eventBuffer = st.eventBuffer)
  ∧ (st.eventBuffer.length < st.eventBufferCap →
      (Server.handleEvents now st e).status = 202
      ∧ (Server.handleEvents now st e).state.eventBuffer = st.eventBuffer ++ [e]) := by
  cases hl : Controller.lookupAgent st.agents e.agentID with
  | none =>
    by_cases hbuf : st.eventBuffer.length < st.eventBufferCap
    · refine ⟨?_, ?_, ?_, ?_⟩
      · intro _
        simp [Server.handleEvents, Controller.IngestEvent, hl, hbuf, lookup_store_self]
      · intro a ha; cases ha
      · intro hc; exact absurd hc (by omega)
      · intro _
        constructor <;> simp [Server.handleEvents, Controller.IngestEvent, hl, hbuf]
    · refine ⟨?_, ?_, ?_, ?_⟩
      · intro _
        simp [Server.handleEvents, Controller.IngestEvent, hl, hbuf, lookup_store_self]
      · intro a ha; cases ha
      · intro _
        constructor <;> simp [Server.handleEvents, Controller.IngestEvent, hl, hbuf]
      · intro hc; exact absurd hc hbuf
  | some a0 =>
    by_cases hbuf : st.eventBuffer.length < st.eventBufferCap
    · refine ⟨?_, ?_, ?_, ?_⟩
      · intro hn; cases hn
      · intro a ha
        injection ha with ha; subst ha
        simp [Server.handleEvents, Controller.IngestEvent, hl, hbuf, lookup_store_self]
      · intro hc; exact absurd hc (by omega)
      · intro _
        constructor <;> simp [Server.handleEvents, Controller.IngestEvent, hl, hbuf]
    · refine ⟨?_, ?_, ?_, ?_⟩
      · intro hn; cases hn
      · intro a ha
        injection ha with ha; subst ha
        simp [Server.handleEvents, Controller.IngestEvent, hl, hbuf, lookup_store_self]
      · intro _
        constructor <;> simp [Server.handleEvents, Controller.IngestEvent, hl, hbuf]
      · intro hc; exact absurd hc hbuf

/-- C1 witness: posting to an empty controller with capacity 1 creates the
agent record with event count 1 and returns 202; posting again with
capacity exhausted returns 503 while the count still advances to 2. -/
theorem ingest_updates_agents_before_admission_witness :
    (Server.handleEvents 3 { agents := [], eventBuffer := [], eventBufferCap := 1 }
        Inputs.emptyEvent).status = 202
  ∧ Controller.lookupAgent
      (Server.handleEvents 3 { agents := [], eventBuffer := [], eventBufferCap := 1 }
        Inputs.emptyEvent).state.agents "a1"
      = some { id := "a1", podName := "p", podNamespace := "ns",
               connectedAt := 3, lastSeen := 3, eventCount := 1 }
  ∧ (Server.handleEvents 4
      { agents := [("a1", { id := "a1", podName := "p", podNamespace := "ns",
                            connectedAt := 3, lastSeen := 3, eventCount := 1 })],
        eventBuffer := [Inputs.emptyEvent], eventBufferCap := 1 }
      Inputs.emptyEvent).status = 503
  ∧ Controller.lookupAgent
      (Server.handleEvents 4
        { agents := [("a1", { id := "a1", podName := "p", podNamespace := "ns",
                              connectedAt := 3, lastSeen := 3, eventCount := 1 })],
          eventBuffer := [Inputs.emptyEvent], eventBufferCap := 1 }
        Inputs.emptyEvent).state.agents "a1"
      = some { id := "a1", podName := "p", podNamespace := "ns",
               connectedAt := 3, lastSeen := 4, eventCount := 2 } := by
  have h1 := ingest_updates_agents_before_admission 3
    { agents := [], eventBuffer := [], eventBufferCap := 1 } Inputs.emptyEvent
  have h2 := ingest_updates_agents_before_admission 4
    { agents := [("a1", { id := "a1", podName := "p", podNamespace := "ns",
                          connectedAt := 3, lastSeen := 3, eventCount := 1 })],
      eventBuffer := [Inputs.emptyEvent], eventBufferCap := 1 } Inputs.emptyEvent
  refine ⟨(h1.2.2.2 (by decide)).1, h1.1 (by decide), (h2.2.2.1 (by decide)).1, ?_⟩
  have h3 := h2.2.1
    { id := "a1", podName := "p", podNamespace := "ns",
      connectedAt := 3, lastSeen := 3, eventCount := 1 } (by decide)
  simpa using h3

/-- C10 (implicit): an event rejected at ingress (503) is never relayed to
the external sink; the relay happens only on the 202 path and only when
the severity string is exactly CRITICAL or HIGH, and always then. -/
theorem rejected_event_never_relayed (now : Nat)
    (st : Controller.State) (e : Types.SecurityEvent) :
    ((Server.handleEvents now st e).relayed = true →
      (Server.handleEvents now st e).status = 202
      ∧ (e.severity = "CRITICAL" ∨ e.severity = "HIGH"))
  ∧ ((Server.handleEvents now st e).status = 503 →
      (Server.handleEvents now st e).relayed = false)
  ∧ (e.severity ≠ "CRITICAL" → e.severity ≠ "HIGH" →
      (Server.handleEvents now st e).relayed = false)
  ∧ ((Server.handleEvents now st e).status = 202 →
      (e.severity = "CRITICAL" ∨ e.severity = "HIGH") →
      (Server.handleEvents now st e).relayed = true) := by
  unfold Server.handleEvents
  cases hi : Controller.IngestEvent now st e with
  | mk st2 r =>
    cases r <;> simp_all

/-- C10 witness: a HIGH event rejected by a zero-capacity queue is not
relayed; the same event accepted by a non-full queue is relayed. -/
theorem rejected_event_never_relayed_witness :
    (Server.handleEvents 0 { agents := [], eventBuffer := [], eventBufferCap := 0 }
        { Inputs.emptyEvent with severity := "HIGH" }).relayed = false
  ∧ (Server.handleEvents 0 { agents := [], eventBuffer := [], eventBufferCap := 1 }
        { Inputs.emptyEvent with severity := "HIGH" }).relayed = true := by
  have h1 := rejected_event_never_relayed 0
    { agents := [], eventBuffer := [], eventBufferCap := 0 }
    { Inputs.emptyEvent with severity := "HIGH" }
  have h2 := rejected_event_never_relayed 0
    { agents := [], eventBuffer := [], eventBufferCap := 1 }
    { Inputs.emptyEvent with severity := "HIGH" }
  exact ⟨h1.2.1 (by decide), h2.2.2.2 (by decide) (Or.inr rfl)⟩

/-- One processEvent step moves the combined counter total up by exactly
one. -/
theorem processEvent_counter_step (now : Nat) (st : Collector.CollectorState)
    (e : Collector.SecurityEvent) (resp : Collector.SendResponse) :
    (Collector.processEvent now st e resp).1.eventsSent
      + (Collector.processEvent now st e resp).1.eventsDropped
    = st.eventsSent + st.eventsDropped + 1 := by
  unfold Collector.processEvent
  by_cases h : Collector.sendEventOK st resp = true
  · simp [h]; ring
  · simp [h]; ring

/-- C8: each processed event increments exactly one of the two counters --
sent exactly when the POST produced status 202 (with the endpoint
configured), dropped for any other status, a transport failure, or a
missing endpoint -- and over a whole trace sent plus dropped advances by
exactly the number of events processed. -/
theorem collector_exactly_one_counter (now : Nat) (st : Collector.CollectorState)
    (e : Collector.SecurityEvent) (resp : Collector.SendResponse) :
    ((Collector.processEvent now st e resp).1.eventsSent
        + (Collector.processEvent now st e resp).1.eventsDropped
      = st.eventsSent + st.eventsDropped + 1)
  ∧ (Collector.sendEventOK st resp = true →
      (Collector.processEvent now st e resp).1.eventsSent = st.eventsSent + 1
      ∧ (Collector.processEvent now st e resp).1.eventsDropped = st.eventsDropped)
  ∧ (Collector.sendEventOK st resp = false →
      (Collector.processEvent now st e resp).1.eventsDropped = st.eventsDropped + 1
      ∧ (Collector.processEvent now st e resp).1.eventsSent = st.eventsSent)
  ∧ (Collector.sendEventOK st resp = true ↔
      st.controllerEndpoint ≠ ""
      ∧ resp = Collector.SendResponse.status 202)
  ∧ (∀ trace, (Collector.processTrace st trace).eventsSent
        + (Collector.processTrace st trace).eventsDropped
      = st.eventsSent + st.eventsDropped + trace.length) := by
  refine ⟨processEvent_counter_step now st e resp, ?_, ?_, ?_, ?_⟩
  · intro h; unfold Collector.processEvent; simp [h]
  · intro h; unfold Collector.processEvent; simp [h]
  · unfold Collector.sendEventOK
    by_cases hep : st.controllerEndpoint = ""
    · simp [hep]
    · cases resp with
      | transportFailure => simp [hep]
      | status code =>
        simp [hep]
  · intro trace
    induction trace generalizing st with
    | nil => simp [Collector.processTrace]
    | cons t rest ih =>
      have hstep := processEvent_counter_step t.1 st t.2.1 t.2.2
      simp only [Collector.processTrace, List.foldl_cons] at ih ⊢
      rw [ih]
      simp only [List.length_cons]
      omega

/-- C8 witness: with a configured endpoint, a 202 response increments
sent; a 500 response and a transport failure increment dropped; three
processed events advance sent plus dropped by three. -/
theorem collector_exactly_one_counter_witness :
    ((Collector.processEvent 0
        { controllerEndpoint := "c:8080", agentID := "a1", podName := "p",
          podNamespace := "ns", eventsSent := 0, eventsDropped := 0 }
        { id := "", type := 0, severity := 0, timestamp := 0, podName := "",
          podNamespace := "", containerID := "", containerName := "",
          process := none, network := none, file := none, metadata := [], tags := [] }
        (Collector.SendResponse.status 202)).1.eventsSent = 1)
  ∧ ((Collector.processEvent 0
        { controllerEndpoint := "c:8080", agentID := "a1", podName := "p",
          podNamespace := "ns", eventsSent := 0, eventsDropped := 0 }
        { id := "", type := 0, severity := 0, timestamp := 0, podName := "",
          podNamespace := "", containerID := "", containerName := "",
          process := none, network := none, file := none, metadata := [], tags := [] }
        (Collector.SendResponse.status 500)).1.eventsDropped = 1) := by
  have h1 := collector_exactly_one_counter 0
    { controllerEndpoint := "c:8080", agentID := "a1", podName := "p",
      podNamespace := "ns", eventsSent := 0, eventsDropped := 0 }
    { id := "", type := 0, severity := 0, timestamp := 0, podName := "",
      podNamespace := "", containerID := "", containerName := "",
      process := none, network := none, file := none, metadata := [], tags := [] }
    (Collector.SendResponse.status 202)
  have h2 := collector_exactly_one_counter 0
    { controllerEndpoint := "c:8080", agentID := "a1", podName := "p",
      podNamespace := "ns", eventsSent := 0, eventsDropped := 0 }
    { id := "", type := 0, severity := 0, timestamp := 0, podName := "",
      podNamespace := "", containerID := "", containerName := "",
      process := none, network := none, file := none, metadata := [], tags := [] }
    (Collector.SendResponse.status 500)
  exact ⟨(h1.2.1 (by decide)).1, (h2.2.2.1 (by decide)).1⟩

/-- C5: whenever the joined command line of a new process matches one of
the built-in reverse-shell patterns, the emitted process-start event
carries the possible_reverse_shell indicator and severity at least
CRITICAL, whatever the other classifiers matched. -/
theorem reverse_shell_indicator_critical (rmatch : String → String → Bool)
    (pats : List String) (now : Nat) (proc : Procmon.ProcessInfo)
    (h : Procmon.isReverseShell rmatch (String.intercalate " " proc.cmdline) = true) :
    (∃ p, (Procmon.analyzeNewProcess rmatch pats now proc).process = some p
        ∧ "possible_reverse_shell" ∈ p.suspiciousIndicators)
  ∧ Collector.severityCritical ≤ (Procmon.analyzeNewProcess rmatch pats now proc).severity
  ∧ (Procmon.analyzeNewProcess rmatch pats now proc).type
      = Collector.eventTypeProcessStart := by
  unfold Procmon.analyzeNewProcess
  simp only [h, if_true]
  by_cases h3 : Procmon.isCryptoMiner rmatch proc.name (String.intercalate " " proc.cmdline) <;>
    by_cases h4 : Procmon.isShellSpawn proc <;>
      simp [h3, h4, Collector.severityCritical, Collector.severityMedium,
        Collector.eventTypeProcessStart]

/-- C5 witness: the concrete /dev/tcp command line matches the built-in
pattern set under the concrete matcher, and the emitted event carries the
indicator with severity at least CRITICAL. -/
theorem reverse_shell_indicator_critical_witness :
    (∃ p, (Procmon.analyzeNewProcess Inputs.literalDevTcpMatch [] 0 Inputs.devTcpProc).process = some p
        ∧ "possible_reverse_shell" ∈ p.suspiciousIndicators)
  ∧ Collector.severityCritical
      ≤ (Procmon.analyzeNewProcess Inputs.literalDevTcpMatch [] 0 Inputs.devTcpProc).severity :=
  by
  have h := reverse_shell_indicator_critical Inputs.literalDevTcpMatch [] 0 Inputs.devTcpProc (by decide)
  exact ⟨h.1, h.2.1⟩

/-- C6 counterexample: a tcp6 row whose remote address is the IPv6
unspecified address and whose remote port is 0 is still emitted, because
the skip compares only against the IPv4 0.0.0.0 form; the claim that such
rows are never emitted for any protocol is therefore false on the code. -/
theorem tcp6_unspecified_zero_port_still_emits :
    Netpolicy.ipIsUnspecified Inputs.tcp6UnspecifiedConn.remoteIP = true
  ∧ Inputs.tcp6UnspecifiedConn.remotePort = 0
  ∧ (Netpolicy.analyzeConnection (fun _ => "") [] 0
      Inputs.tcp6UnspecifiedConn).isSome = true := by
  decide

/-- C6 amended: emission is skipped exactly for rows whose remote port is
0 and whose remote IP is the IPv4 unspecified address 0.0.0.0 (the form
parseAddress yields for IPv4 rows); every other row produces an event. -/
theorem skip_exactly_ipv4_zero_remote (ipToString : Netpolicy.GoIP → String)
    (susp : List Int) (now : Nat) (conn : Netpolicy.Connection)
    (h0 : conn.remotePort = 0)
    (h4 : Netpolicy.ipEqual conn.remoteIP Netpolicy.ipv4zero = true) :
    Netpolicy.analyzeConnection ipToString susp now conn = none
  ∧ (∀ conn2 : Netpolicy.Connection,
      ¬(conn2.remotePort = 0 ∧ Netpolicy.ipEqual conn2.remoteIP Netpolicy.ipv4zero = true) →
      (Netpolicy.analyzeConnection ipToString susp now conn2).isSome = true) := by
  constructor
  · simp [Netpolicy.analyzeConnection, h0, h4]
  · intro conn2 h2
    unfold Netpolicy.analyzeConnection
    have hcond : (conn2.remotePort == 0 && Netpolicy.ipEqual conn2.remoteIP Netpolicy.ipv4zero) = false := by
      by_cases ha : conn2.remotePort = 0
      · by_cases hb : Netpolicy.ipEqual conn2.remoteIP Netpolicy.ipv4zero = true
        · exact absurd ⟨ha, hb⟩ h2
        · simp [hb]
      · simp [ha]
    simp [hcond]

/-- C6 amended witness: the IPv4 row with remote 0.0.0.0:0 is skipped,
and the tcp6 row with remote unspecified and port 0 is emitted. -/
theorem skip_exactly_ipv4_zero_remote_witness :
    Netpolicy.analyzeConnection (fun _ => "") [] 0 Inputs.ipv4ZeroConn = none
  ∧ (Netpolicy.analyzeConnection (fun _ => "") [] 0
      Inputs.tcp6UnspecifiedConn).isSome = true := by
  have h := skip_exactly_ipv4_zero_remote (fun _ => "") [] 0 Inputs.ipv4ZeroConn
    (by decide) (by decide)
  exact ⟨h.1, h.2 Inputs.tcp6UnspecifiedConn (by decide)⟩

/-- A separator-free character list is not split. -/
theorem splitOnChar_no_sep (sep : Char) (l : List Char) (h : sep ∉ l) :
    Netpolicy.splitOnChar sep l = [l] := by
  induction l with
  | nil => rfl
  | cons c rest ih =>
    simp only [List.mem_cons, not_or] at h
    have h1 : c ≠ sep := fun hc => h.1 hc.symm
    simp [Netpolicy.splitOnChar, h1, ih h.2]

/-- Splitting at the first separator occurrence detaches the prefix before
it. -/
theorem splitOnChar_mid (sep : Char) (l1 l2 : List Char) (h1 : sep ∉ l1) :
    Netpolicy.splitOnChar sep (l1 ++ sep :: l2)
      = l1 :: Netpolicy.splitOnChar sep l2 := by
  induction l1 with
  | nil => simp [Netpolicy.splitOnChar]
  | cons c rest ih =>
    simp only [List.mem_cons, not_or] at h1
    have hc : c ≠ sep := fun h => h1.1 h.symm
    simp [Netpolicy.splitOnChar, hc, ih h1.2]

/-- parseIntHex32 on a plain digit string returns the accumulated value
when it fits in 31 bits. -/
theorem parseIntHex32_digits (c : Char) (rest : List Char) (n : Nat)
    (hd : (Netpolicy.hexDigitVal c).isSome = true)
    (hp : Netpolicy.parseHexNat (c :: rest) 0 = some n)
    (hr : n ≤ 2 ^ 31 - 1) :
    Netpolicy.parseIntHex32 (c :: rest) = some (Int.ofNat n) := by
  have hplus : c ≠ '+' := by
    rintro rfl
    have : Netpolicy.hexDigitVal '+' = none := by decide
    rw [this] at hd
    cases hd
  have hminus : c ≠ '-' := by
    rintro rfl
    have : Netpolicy.hexDigitVal '-' = none := by decide
    rw [this] at hd
    cases hd
  have hr2 : n ≤ 2147483647 := by omega
  simp [Netpolicy.parseIntHex32, hplus, hminus, hp, hr2]

/-- C7: parseAddress on an 8-hex-digit address and a hex port separated by
a colon reverses the four decoded bytes into the little-endian IPv4
address and parses the port as hexadecimal; in particular 0100007F:1F90
yields 127.0.0.1 port 8080. -/
theorem parse_address_ipv4_reversal (ipCs portCs : List Char)
    (b0 b1 b2 b3 : Nat) (n : Nat)
    (hip : Netpolicy.hexDecodeList ipCs = some [b0, b1, b2, b3])
    (hlen : ipCs.length = 8)
    (hc1 : ':' ∉ ipCs) (hc2 : ':' ∉ portCs)
    (hne : portCs ≠ [])
    (hport : Netpolicy.parseHexNat portCs 0 = some n)
    (hrange : n ≤ 2 ^ 31 - 1) :
    Netpolicy.parseAddress (String.mk (ipCs ++ ':' :: portCs))
      = some (Netpolicy.goIPv4 b3 b2 b1 b0, Int.ofNat n)
  ∧ Netpolicy.parseAddress "0100007F:1F90"
      = some (Netpolicy.goIPv4 127 0 0 1, (8080 : Int)) := by
  constructor
  · unfold Netpolicy.parseAddress
    have hsplit : Netpolicy.splitOnChar ':' (String.mk (ipCs ++ ':' :: portCs)).data
        = [ipCs, portCs] := by
      show Netpolicy.splitOnChar ':' (ipCs ++ ':' :: portCs) = [ipCs, portCs]
      rw [splitOnChar_mid ':' ipCs portCs hc1, splitOnChar_no_sep ':' portCs hc2]
    rw [hsplit]
    have hlen2 : (String.mk ipCs).length = 8 := hlen
    cases portCs with
    | nil => exact absurd rfl hne
    | cons c rest =>
      have hd : (Netpolicy.hexDigitVal c).isSome = true := by
        cases hdc : Netpolicy.hexDigitVal c with
        | some d => rfl
        | none => simp [Netpolicy.parseHexNat, hdc] at hport
      have hval := parseIntHex32_digits c rest n hd hport hrange
      simp [hlen2, hip, hval]
  · decide

/-- C7 witness: the theorem applied at the concrete table column
0100007F:1F90 produces the loopback address 127.0.0.1 and port 8080. -/
theorem parse_address_ipv4_reversal_witness :
    Netpolicy.parseAddress "0100007F:1F90"
      = some (Netpolicy.goIPv4 127 0 0 1, (8080 : Int)) :=
  (parse_address_ipv4_reversal "0100007F".data "1F90".data 1 0 0 127 8080
    (by decide) (by decide) (by decide) (by decide) (by decide)
    (by decide) (by decide)).2

/-- C4: when any skip predicate holds the mutator emits no patch
operations; otherwise the patch list opens with the apss-agent container
add, continues with the volume add (fresh list or append according to the
existing volumes), contains exactly one shareProcessNamespace operation
exactly when that field was not already true (placed third, adding true),
ends with the annotation add-or-extend, and so has at least 3
operations. -/
theorem mutator_patch_shape (cfg : Webhook.WebhookConfig) (pod : Webhook.Pod)
    (ns : String) :
    (Webhook.ShouldSkipInjection cfg pod ns = true →
      Webhook.mutatePod cfg pod ns = [])
  ∧ (Webhook.ShouldSkipInjection cfg pod ns = false →
      3 ≤ (Webhook.mutatePod cfg pod ns).length
      ∧ (Webhook.mutatePod cfg pod ns).head? = some
          { op := "add", path := "/spec/containers/-"
            value := some (Webhook.PatchValue.container (Webhook.sidecarContainer cfg pod)) }
      ∧ (Webhook.sidecarContainer cfg pod).name = "apss-agent"
      ∧ (Webhook.mutatePod cfg pod ns)[1]? = some
          (if pod.volumes.length = 0 then
            { op := "add", path := "/spec/volumes"
              value := some (Webhook.PatchValue.volumeList [Webhook.procVolume]) }
          else
            { op := "add", path := "/spec/volumes/-"
              value := some (Webhook.PatchValue.volume Webhook.procVolume) })
      ∧ ((Webhook.mutatePod cfg pod ns).filter
            (fun p => p.path == "/spec/shareProcessNamespace")).length
          = (if pod.shareProcessNamespace = some true then 0 else 1)
      ∧ (pod.shareProcessNamespace ≠ some true →
          (Webhook.mutatePod cfg pod ns)[2]? = some
            { op := "add", path := "/spec/shareProcessNamespace"
              value := some (Webhook.PatchValue.boolean true) })
      ∧ (Webhook.mutatePod cfg pod ns).getLast? = some
          (match pod.annots with
           | none =>
             { op := "add", path := "/metadata/annotations"
               value := some (Webhook.PatchValue.stringMap
                 [("apss.invisible.tech/injected", "true")]) }
           | some _ =>
             { op := "add", path := "/metadata/annotations/apss.invisible.tech~1injected"
               value := some (Webhook.PatchValue.str "true") })) := by
  constructor
  · intro h; simp [Webhook.mutatePod, h]
  · intro h
    have hm : Webhook.mutatePod cfg pod ns = Webhook.CreateSidecarPatches cfg pod := by
      simp [Webhook.mutatePod, h]
    rw [hm]
    have hname : (Webhook.sidecarContainer cfg pod).name = "apss-agent" := rfl
    unfold Webhook.CreateSidecarPatches
    by_cases hv : pod.volumes.length = 0 <;>
      rcases hspn : pod.shareProcessNamespace with _ | (_ | _) <;>
        cases hann : pod.annots <;>
          simp [hv, hspn, hann, hname, List.getLast?]

/-- C4 witness: a plain pod in a non-excluded namespace is not skipped,
and the computed patch list has the stated shape at every position. -/
theorem mutator_patch_shape_witness :
    Webhook.ShouldSkipInjection Inputs.webhookCfg Inputs.plainPod "app" = false
  ∧ 3 ≤ (Webhook.mutatePod Inputs.webhookCfg Inputs.plainPod "app").length
  ∧ ((Webhook.mutatePod Inputs.webhookCfg Inputs.plainPod "app").filter
        (fun p => p.path == "/spec/shareProcessNamespace")).length = 1 := by
  have hskip : Webhook.ShouldSkipInjection Inputs.webhookCfg Inputs.plainPod "app" = false := by
    decide
  have h := (mutator_patch_shape Inputs.webhookCfg Inputs.plainPod "app").2 hskip
  refine ⟨hskip, h.1, ?_⟩
  rw [h.2.2.2.2.1]
  decide

end APSS
